import Mathlib

/-!
Verification development for the ESP8266IRRecord firmware (src/src/main.cpp).

The firmware is a single polling loop: it reads decoded IR results from the
IRremoteESP8266 library, logs a verbose dump over serial, and renders a short
summary on an SSD1306 pixel display, clearing the display only when more than
`CLEAR_AFTER_MILLISECONDS` have elapsed since the last display update.

We give a shallow embedding: external library calls (IR decoding, text
conversion, display drawing) are modelled as opaque inputs (a `LibFns` record
of string-producing functions) and as emitted events (`DisplayAction` values
and serial line strings).  Machine integers are `Nat` with explicit `% 2^32`
where 32-bit wraparound matters (`unsigned long` on the ESP8266 is 32 bits).
-/

namespace ESP8266IRRecord

/-! ## Constants from main.cpp -/

def SCREEN_WIDTH  : Nat := 128
def SCREEN_HEIGHT : Nat := 64

def TEXT_SIZE_SMALL  : Nat := 1
def TEXT_SIZE_MEDIUM : Nat := 2

/-- SSD1306 color constants from the Adafruit library. -/
def SSD1306_BLACK : Nat := 0
def SSD1306_WHITE : Nat := 1

def CLEAR_AFTER_MILLISECONDS : Nat := 2000

def kCaptureBufferSize : Nat := 4096

/-- Library default tolerance (25%), per `IRrecv.h`. -/
def kTolerance : Nat := 25

/-- Source: `const uint8_t kTolerancePercentage = kTolerance;` -/
def kTolerancePercentage : Nat := kTolerance

/-- Modulus of the 32-bit `unsigned long` used for millis() arithmetic. -/
def UINT32_MOD : Nat := 2 ^ 32

/-- Unsigned 32-bit subtraction `a - b` (C semantics on `unsigned long`),
for operands already reduced or not; the result is the modular difference. -/
def sub32 (a b : Nat) : Nat := (a % UINT32_MOD + (UINT32_MOD - b % UINT32_MOD)) % UINT32_MOD

/-! ## The decode_results record (fields used by main.cpp) -/

/-- The fields of the library's `decode_results` struct that main.cpp reads:
protocol enum, 64-bit value, 32-bit address and command, overflow and repeat
flags. -/
structure DecodeResults where
  decode_type : Nat
  value : Nat
  address : Nat
  command : Nat
  overflow : Bool
  «repeat» : Bool
deriving DecidableEq, Repr

/-! ## printf-style formatting (%02X, %08X, %d) -/

/-- Uppercase hexadecimal digit character for `n < 16`. -/
def hexDigitChar (n : Nat) : Char :=
  if n < 10 then Char.ofNat (48 + n) else Char.ofNat (55 + n)

/-- Hex digit expansion, most significant first, empty for 0; fuel-based so
that it computes by kernel reduction. -/
def hexCharsAux : Nat → Nat → List Char
  | 0, _ => []
  | fuel + 1, n =>
    if n = 0 then [] else hexCharsAux fuel (n / 16) ++ [hexDigitChar (n % 16)]

/-- Hex digits of `n`, most significant first (empty for 0). -/
def hexChars (n : Nat) : List Char := hexCharsAux n n

/-- Uppercase hex rendering of `n` with no padding (what `%X` prints). -/
def hexStr (n : Nat) : String :=
  if n = 0 then "0" else String.mk (hexChars n)

/-- Left-pad a string with '0' to width `w` (printf's `%0wX` padding). -/
def pad0 (w : Nat) (s : String) : String :=
  String.mk (List.replicate (w - s.length) '0') ++ s

/-- Format `%02X` of an unsigned value. -/
def fmt02X (n : Nat) : String := pad0 2 (hexStr n)

/-- Format `%08X` of an unsigned value. -/
def fmt08X (n : Nat) : String := pad0 8 (hexStr n)

/-- Format `%d` applied to a 32-bit unsigned argument reinterprets it as int32. -/
def fmtD (n : Nat) : String :=
  if n % UINT32_MOD < 2 ^ 31 then toString (n % UINT32_MOD)
  else "-" ++ toString (UINT32_MOD - n % UINT32_MOD)

/-! ## Opaque library functions

Text produced by the IRremoteESP8266 library is not part of this repository;
we abstract it as an arbitrary record of functions. -/

structure LibFns where
  typeToString : Nat → Bool → String
  resultToHexidecimal : DecodeResults → String
  resultToHumanReadableBasic : DecodeResults → String
  resultAcToString : DecodeResults → String
  resultToSourceCode : DecodeResults → String
  /-- The formatted `D_WARN_BUFFERFULL` printf line with its `%d` argument. -/
  warnBufferFull : Nat → String
  /-- The formatted `D_STR_TOLERANCE " : %d%%"` line. -/
  toleranceLine : Nat → String
  /-- The `D_STR_MESGDESC` macro text. -/
  mesgDesc : String
  /-- The formatted `D_STR_IRRECVDUMP_STARTUP` printf line with pin argument. -/
  irrecvDumpStartup : Nat → String

/-! ## Display actions and state -/

/-- One call into the Adafruit display library. -/
inductive DisplayAction where
  | fillScreen (color : Nat)
  | setCursor (x y : Nat)
  | setTextSize (n : Nat)
  | setTextColor (c : Nat)
  | print (s : String)
  | fillRect (x y w h : Nat) (c : Nat)
  | flush
deriving DecidableEq, Repr

/-- The global mutable state of main.cpp: the two millisecond timestamps and
the single decode-result record reused each iteration. -/
structure SysState where
  g_previousDisplayMillis : Nat
  g_currentMillis : Nat
  g_DecodeResults : DecodeResults
deriving DecidableEq, Repr

/-! ## displayResults (main.cpp lines 151-189)

`displayResults` takes `ir_results` by value but, as in the source, reads the
global `g_DecodeResults`.  It returns the sequence of display-library calls
it makes and the new value of `g_previousDisplayMillis` (set from a fresh
`millis()` call at the end, passed in as `millisAtEnd`). -/

/-- The `"Address : 0x%02X%02X (%d)"` payload on the display, line 173. -/
def displayAddrCmdPair (v : Nat) : String :=
  "0x" ++ fmt02X v ++ fmt02X (sub32 255 v) ++ " (" ++ fmtD v ++ ")"

/-- The `"Address: 0x%02X%02X (%d)"` payload on the serial log, line 278. -/
def serialAddrCmdPair (v : Nat) : String :=
  "0x" ++ fmt02X v ++ fmt02X (sub32 255 v) ++ " (" ++ fmtD v ++ ")"

/-- The conditional `Address : ...` print of displayResults (lines 172-177). -/
def displayAddrActs (r : DecodeResults) : List DisplayAction :=
  if r.address > 0 then
    [.print ("Address : " ++ displayAddrCmdPair r.address ++ "\n")]
  else []

/-- The conditional `Command : ...` print of displayResults (lines 180-185). -/
def displayCmdActs (r : DecodeResults) : List DisplayAction :=
  if r.command > 0 then
    [.print ("Command : " ++ displayAddrCmdPair r.command ++ "\n")]
  else []

/-- The unconditional rendering body of displayResults (everything after the
clear-screen check): text attributes, protocol and code lines, the optional
address/command lines, and the final flush (lines 159-187). -/
def renderBody (lib : LibFns) (r : DecodeResults) : List DisplayAction :=
  [.setTextSize TEXT_SIZE_SMALL,
   .setTextColor SSD1306_WHITE,
   .print ("Protocol: " ++ lib.typeToString r.decode_type r.«repeat» ++ "\n"),
   .print ("Code    : " ++ lib.resultToHexidecimal r ++ "\n")]
  ++ displayAddrActs r ++ displayCmdActs r ++ [.flush]

/-- Shallow embedding of `displayResults`: its display calls and the updated
`g_previousDisplayMillis`. -/
def displayResults (st : SysState) (lib : LibFns) (ir_results : DecodeResults)
    (millisAtEnd : Nat) : List DisplayAction × Nat :=
  ((if sub32 st.g_currentMillis st.g_previousDisplayMillis >
        CLEAR_AFTER_MILLISECONDS then
      [DisplayAction.fillScreen SSD1306_BLACK, DisplayAction.setCursor 0 0]
    else [])
   ++ renderBody lib st.g_DecodeResults,
   millisAtEnd % UINT32_MOD)

/-! ## The serial dump of loop's decode branch (lines 248-303) -/

/-- The conditional `Address: ...` serial line (lines 277-282). -/
def serialAddrLines (r : DecodeResults) : List String :=
  if r.address ≠ 0 then
    ["Address: " ++ serialAddrCmdPair r.address]
  else []

/-- The conditional `Command: ...` serial line (lines 285-290). -/
def serialCmdLines (r : DecodeResults) : List String :=
  if r.command ≠ 0 then
    ["Command: " ++ serialAddrCmdPair r.command]
  else []

/-- The conditional `Value  : 0x%08X%08X` serial line (lines 293-298): high
32 bits then low 32 bits, each as 8 zero-padded uppercase hex digits. -/
def serialValueLines (r : DecodeResults) : List String :=
  if r.value ≠ 0 then
    ["Value  : 0x" ++ fmt08X (r.value / 2 ^ 32 % UINT32_MOD)
                  ++ fmt08X (r.value % UINT32_MOD)]
  else []

/-- All serial lines of one decode-branch iteration, BEGIN banner through the
value line (lines 248-298); the END banner is printed after displayResults. -/
def serialDump (lib : LibFns) (r : DecodeResults) : List String :=
  ["[====== ESP8266IRRecord - BEGIN ======]"]
  ++ (if r.overflow then [lib.warnBufferFull kCaptureBufferSize] else [])
  ++ (if kTolerancePercentage ≠ kTolerance
      then [lib.toleranceLine kTolerancePercentage] else [])
  ++ ["[resultToHumanReadableBasic]:", lib.resultToHumanReadableBasic r]
  ++ (if (lib.resultAcToString r).length ≠ 0
      then ["[resultsAcToString]:", lib.mesgDesc ++ ": " ++ lib.resultAcToString r]
      else [])
  ++ ["[resultsToSourceCode]:", lib.resultToSourceCode r]
  ++ serialAddrLines r ++ serialCmdLines r ++ serialValueLines r

/-! ## loop (main.cpp lines 242-318) -/

/-- Per-iteration inputs from the environment: the value of `millis()` at the
top of the loop, whether `irrecv.decode` returned true, the record it wrote
into `g_DecodeResults` when it did, and the value of the fresh `millis()`
call at the end of displayResults. -/
structure LoopInput where
  millisAtStart : Nat
  decoded : Bool
  results : DecodeResults
  millisAtDisplayEnd : Nat

/-- The observable outcome of one loop iteration. -/
structure LoopOutput where
  state : SysState
  serial : List String
  displayActs : List DisplayAction
deriving Repr

/-- The idle-branch display calls (lines 304-318): a 2x2 white square in the
bottom-right corner plus a flush, only when the elapsed time exceeds
`CLEAR_AFTER_MILLISECONDS`. -/
def idleActs (st : SysState) : List DisplayAction :=
  if sub32 st.g_currentMillis st.g_previousDisplayMillis >
      CLEAR_AFTER_MILLISECONDS then
    [.fillRect (SCREEN_WIDTH - 2) (SCREEN_HEIGHT - 2) 2 2 SSD1306_WHITE,
     .flush]
  else []

/-- Shallow embedding of one `loop()` iteration. -/
def loopStep (lib : LibFns) (inp : LoopInput) (st : SysState) : LoopOutput :=
  let st1 : SysState :=
    { st with
      g_currentMillis := inp.millisAtStart % UINT32_MOD,
      g_DecodeResults := if inp.decoded then inp.results else st.g_DecodeResults }
  if inp.decoded && !st1.g_DecodeResults.«repeat» then
    let dr := displayResults st1 lib st1.g_DecodeResults inp.millisAtDisplayEnd
    { state := { st1 with g_previousDisplayMillis := dr.2 },
      serial := serialDump lib st1.g_DecodeResults
                ++ ["[====== ESP8266IRRecord - END ======]"],
      displayActs := dr.1 }
  else
    { state := st1, serial := [], displayActs := idleActs st1 }

/-! ## setup (main.cpp lines 197-228) -/

/-- Outcome of `setup`: either the program halts forever in the
`for(;;);` loop after a failed `display.begin`, or setup completes and the
main loop is reached. -/
inductive SetupOutcome where
  | halted (serial : List String)
  | completed (serial : List String) (displayActs : List DisplayAction)
deriving Repr

/-- Shallow embedding of `setup`, parametrised by whether `display.begin`
succeeds.  The infinite empty loop on failure is modelled by the `halted`
outcome: no further serial output or display calls ever happen, and the main
loop is never reached. -/
def setup (lib : LibFns) (kRecvPin : Nat) (displayBeginOk : Bool) : SetupOutcome :=
  let pre := [lib.irrecvDumpStartup kRecvPin]
  if !displayBeginOk then
    .halted (pre ++ ["SSD1306 allocation FAILED"])
  else
    .completed (pre ++ ["SSD1306 allocation SUCCEEDED"])
      [.fillScreen SSD1306_BLACK,
       .setTextSize TEXT_SIZE_MEDIUM,
       .setTextColor SSD1306_WHITE,
       .setCursor 0 0,
       .print "Waiting\nfor\nIR Code...\n",
       .flush]

/-! ## Spec-side formatter (refinement target for the address/command claim)

The spec states the pair format as: `V` printed as two uppercase hex digits,
then `0xFF - V` printed as two uppercase hex digits, then `V` in decimal in
parentheses.  This definition follows the spec's words directly (plain
subtraction, digit-by-digit extraction) and is compared against the printf
model taken from the source. -/

def specAddrCmdPair (v : Nat) : String :=
  "0x" ++ String.mk [hexDigitChar (v / 16), hexDigitChar (v % 16),
                     hexDigitChar ((255 - v) / 16), hexDigitChar ((255 - v) % 16)]
       ++ " (" ++ toString v ++ ")"

/-! ## Hex parse-back (to state that the printed hex equals the value) -/

/-- Numeric value of an uppercase hex digit character. -/
def hexCharVal (c : Char) : Nat :=
  if c.toNat < 65 then c.toNat - 48 else c.toNat - 55

/-- Parse a big-endian list of hex digit characters. -/
def fromHexList (cs : List Char) : Nat :=
  cs.foldl (fun a c => 16 * a + hexCharVal c) 0

/-- Parse a hexadecimal string. -/
def fromHexString (s : String) : Nat := fromHexList s.data

/-- The serial dump lines after the overflow check: none of them inspects the
overflow flag (they depend on the record only through the other fields and
the library conversions applied to the whole record), per lines 255-298. -/
def serialDumpBody (lib : LibFns) (r : DecodeResults) : List String :=
  (if kTolerancePercentage ≠ kTolerance
      then [lib.toleranceLine kTolerancePercentage] else [])
  ++ ["[resultToHumanReadableBasic]:", lib.resultToHumanReadableBasic r]
  ++ (if (lib.resultAcToString r).length ≠ 0
      then ["[resultsAcToString]:", lib.mesgDesc ++ ": " ++ lib.resultAcToString r]
      else [])
  ++ ["[resultsToSourceCode]:", lib.resultToSourceCode r]
  ++ serialAddrLines r ++ serialCmdLines r ++ serialValueLines r

/-! ## Concrete instances used by the witness theorems -/

/-- An arbitrary concrete instantiation of the external-library functions. -/
def libStub : LibFns where
  typeToString := fun _ _ => "NEC"
  resultToHexidecimal := fun _ => "0x20DF40BF"
  resultToHumanReadableBasic := fun _ => "basic dump"
  resultAcToString := fun _ => ""
  resultToSourceCode := fun _ => "uint16_t rawData[4] = {};"
  warnBufferFull := fun n => "IR code too big for buffer " ++ toString n
  toleranceLine := fun n => "Tolerance : " ++ toString n ++ "%"
  mesgDesc := "Mesg Desc."
  irrecvDumpStartup := fun n => "IRrecvDump is now running and waiting on pin " ++ toString n

/-- A sample decode result: NEC 0x20DF40BF, address 4, command 2. -/
def rSample : DecodeResults where
  decode_type := 3
  value := 0x20DF40BF
  address := 4
  command := 2
  overflow := false
  «repeat» := false

def stSample : SysState where
  g_previousDisplayMillis := 0
  g_currentMillis := 0
  g_DecodeResults := rSample

def inpSample : LoopInput where
  millisAtStart := 2500
  decoded := true
  results := rSample
  millisAtDisplayEnd := 2600

theorem hexCharVal_hexDigitChar : ∀ d < 16, hexCharVal (hexDigitChar d) = d := by
  decide

theorem foldl_hex_shift (cs : List Char) :
    ∀ a : Nat, cs.foldl (fun a c => 16 * a + hexCharVal c) a
      = a * 16 ^ cs.length + fromHexList cs := by
  induction cs with
  | nil => intro a; simp [fromHexList]
  | cons c cs ih =>
    intro a
    have h1 := ih (16 * a + hexCharVal c)
    have h2 := ih (16 * 0 + hexCharVal c)
    simp only [List.foldl_cons, fromHexList] at *
    rw [h1, h2]
    simp only [List.length_cons, pow_succ]
    ring

theorem fromHexList_append (xs ys : List Char) :
    fromHexList (xs ++ ys) = fromHexList xs * 16 ^ ys.length + fromHexList ys := by
  simp only [fromHexList, List.foldl_append]
  exact foldl_hex_shift ys (fromHexList xs)

theorem fromHexList_hexCharsAux :
    ∀ fuel n, n ≤ fuel → fromHexList (hexCharsAux fuel n) = n := by
  intro fuel
  induction fuel with
  | zero =>
    intro n hn
    interval_cases n
    simp [hexCharsAux, fromHexList]
  | succ fuel ih =>
    intro n hn
    by_cases h0 : n = 0
    · simp [hexCharsAux, h0, fromHexList]
    · have hdiv : n / 16 ≤ fuel := by
        have := Nat.div_lt_self (Nat.pos_of_ne_zero h0) (by omega : 1 < 16)
        omega
      rw [hexCharsAux, if_neg h0, fromHexList_append, ih _ hdiv]
      have hval : hexCharVal (hexDigitChar (n % 16)) = n % 16 :=
        hexCharVal_hexDigitChar _ (Nat.mod_lt _ (by omega))
      simp [fromHexList, hval]
      omega

theorem fromHexList_hexChars (n : Nat) : fromHexList (hexChars n) = n :=
  fromHexList_hexCharsAux n n le_rfl

theorem fromHexList_replicate_zero (k : Nat) :
    fromHexList (List.replicate k '0') = 0 := by
  induction k with
  | zero => simp [fromHexList]
  | succ k ih =>
    have h0 : hexCharVal '0' = 0 := by decide
    simpa [fromHexList, List.replicate_succ, h0] using ih

theorem fromHexList_pad (k : Nat) (cs : List Char) :
    fromHexList (List.replicate k '0' ++ cs) = fromHexList cs := by
  rw [fromHexList_append, fromHexList_replicate_zero]
  ring

theorem fromHexString_hexStr (n : Nat) : fromHexString (hexStr n) = n := by
  by_cases h0 : n = 0
  · simp [hexStr, h0, fromHexString]
    decide
  · rw [hexStr, if_neg h0]
    exact fromHexList_hexChars n

theorem fromHexString_pad0 (w : Nat) (s : String) :
    fromHexString (pad0 w s) = fromHexString s := by
  simp only [fromHexString, pad0, String.data_append]
  exact fromHexList_pad _ _

theorem fromHexString_fmt08X (n : Nat) : fromHexString (fmt08X n) = n := by
  rw [fmt08X, fromHexString_pad0]
  exact fromHexString_hexStr n

/-! ## Length of the padded hex fields -/

theorem hexCharsAux_length_le :
    ∀ fuel n k, n ≤ fuel → n < 16 ^ k → (hexCharsAux fuel n).length ≤ k := by
  intro fuel
  induction fuel with
  | zero => intro n k _ _; simp [hexCharsAux]
  | succ fuel ih =>
    intro n k hn hk
    by_cases h0 : n = 0
    · simp [hexCharsAux, h0]
    · match k with
      | 0 => omega
      | k + 1 =>
        have hdiv : n / 16 ≤ fuel := by
          have := Nat.div_lt_self (Nat.pos_of_ne_zero h0) (by omega : 1 < 16)
          omega
        have hdivk : n / 16 < 16 ^ k := by
          rw [Nat.div_lt_iff_lt_mul (by omega : 0 < 16)]
          calc n < 16 ^ (k + 1) := hk
            _ = 16 ^ k * 16 := by ring
        have := ih (n / 16) k hdiv hdivk
        rw [hexCharsAux, if_neg h0]
        simp only [List.length_append, List.length_cons, List.length_nil]
        omega

theorem hexStr_data_length_le (n k : Nat) (hk : 0 < k) (h : n < 16 ^ k) :
    (hexStr n).data.length ≤ k := by
  by_cases h0 : n = 0
  · simp [hexStr, h0]
    omega
  · rw [hexStr, if_neg h0]
    exact hexCharsAux_length_le n n k le_rfl h

theorem pad0_data (w : Nat) (s : String) :
    (pad0 w s).data = List.replicate (w - s.length) '0' ++ s.data := by
  simp [pad0, String.data_append]

theorem pad0_data_length (w : Nat) (s : String) (h : s.data.length ≤ w) :
    (pad0 w s).data.length = w := by
  rw [pad0_data]
  simp only [List.length_append, List.length_replicate, String.length]
  omega

theorem fmt08X_data_length (n : Nat) (h : n < 2 ^ 32) :
    (fmt08X n).data.length = 8 := by
  have h16 : n < 16 ^ 8 := by
    calc n < 2 ^ 32 := h
      _ = 16 ^ 8 := by norm_num
  exact pad0_data_length 8 _ (hexStr_data_length_le n 8 (by omega) h16)

/-- The concatenated `%08X%08X` print of the high and low halves parses back
to the original 64-bit value, and has exactly 16 hex digits. -/
theorem fmt08X_pair_value (v : Nat) (h : v < 2 ^ 64) :
    fromHexString (fmt08X (v / 2 ^ 32 % UINT32_MOD) ++ fmt08X (v % UINT32_MOD)) = v
    ∧ (fmt08X (v / 2 ^ 32 % UINT32_MOD) ++ fmt08X (v % UINT32_MOD)).length = 16 := by
  have hhi : v / 2 ^ 32 < 2 ^ 32 := by
    rw [Nat.div_lt_iff_lt_mul (by norm_num : (0:ℕ) < 2 ^ 32)]
    calc v < 2 ^ 64 := h
      _ = 2 ^ 32 * 2 ^ 32 := by norm_num
  have hhi' : v / 2 ^ 32 % UINT32_MOD = v / 2 ^ 32 := Nat.mod_eq_of_lt hhi
  have hlo : v % UINT32_MOD < 2 ^ 32 := by
    simp only [UINT32_MOD]
    exact Nat.mod_lt _ (by norm_num)
  have hlen : (fmt08X (v % UINT32_MOD)).data.length = 8 := fmt08X_data_length _ hlo
  constructor
  · rw [fromHexString, String.data_append, fromHexList_append, hlen]
    have e1 : fromHexList (fmt08X (v / 2 ^ 32 % UINT32_MOD)).data
        = v / 2 ^ 32 % UINT32_MOD := fromHexString_fmt08X _
    have e2 : fromHexList (fmt08X (v % UINT32_MOD)).data
        = v % UINT32_MOD := fromHexString_fmt08X _
    rw [e1, e2, hhi']
    have : (16:ℕ) ^ 8 = 2 ^ 32 := by norm_num
    rw [this]
    have := Nat.div_add_mod v (2 ^ 32)
    show v / 2 ^ 32 * 2 ^ 32 + v % UINT32_MOD = v
    show v / 2 ^ 32 * 2 ^ 32 + v % (2 ^ 32) = v
    omega
  · show (fmt08X (v / 2 ^ 32 % UINT32_MOD) ++ fmt08X (v % UINT32_MOD)).data.length = 16
    rw [String.data_append]
    simp only [List.length_append]
    rw [hlen, hhi', fmt08X_data_length _ hhi]

/-! ## The printf pair format agrees with the spec's format for 8-bit values -/

set_option maxRecDepth 20000 in
theorem addrCmdPair_spec_bounded :
    ∀ v < 256, 0 < v → displayAddrCmdPair v = specAddrCmdPair v := by
  decide

/-! ## Helper facts about the modular elapsed-time check -/

theorem sub32_mod_left (a b : Nat) : sub32 (a % UINT32_MOD) b = sub32 a b := by
  simp only [sub32, UINT32_MOD]
  omega

/-- The render body contains no clear-screen or cursor-reset call, whatever
the library's text output is. -/
theorem renderBody_no_clear (lib : LibFns) (r : DecodeResults) :
    DisplayAction.fillScreen SSD1306_BLACK ∉ renderBody lib r
    ∧ DisplayAction.setCursor 0 0 ∉ renderBody lib r := by
  constructor <;>
  · simp only [renderBody, displayAddrActs, displayCmdActs, List.mem_append,
      List.mem_cons, List.mem_singleton, List.not_mem_nil]
    split <;> split <;> simp

/-! ## C1 -/

/-- C1: in an iteration that handles a new, non-repeat decode result, the
display calls consist of the clear-screen pair (fill black, cursor to 0,0)
exactly when `g_currentMillis - g_previousDisplayMillis > 2000` (32-bit
modular difference), followed by the render body, which itself never clears
the screen or resets the cursor. -/
theorem clear_iff_elapsed_exceeds_threshold (lib : LibFns) (inp : LoopInput)
    (st : SysState) (hdec : inp.decoded = true)
    (hrep : inp.results.«repeat» = false) :
    (loopStep lib inp st).displayActs =
      (if sub32 inp.millisAtStart st.g_previousDisplayMillis >
          CLEAR_AFTER_MILLISECONDS then
        [DisplayAction.fillScreen SSD1306_BLACK, DisplayAction.setCursor 0 0]
      else [])
      ++ renderBody lib inp.results
    ∧ DisplayAction.fillScreen SSD1306_BLACK ∉ renderBody lib inp.results
    ∧ DisplayAction.setCursor 0 0 ∉ renderBody lib inp.results := by
  refine ⟨?_, (renderBody_no_clear lib inp.results).1,
    (renderBody_no_clear lib inp.results).2⟩
  simp [loopStep, displayResults, hdec, hrep, sub32_mod_left]

/-- Witness for C1 at a concrete library, input and state. -/
theorem clear_iff_elapsed_exceeds_threshold_witness :
    inpSample.decoded = true ∧ inpSample.results.«repeat» = false ∧
    ((loopStep libStub inpSample stSample).displayActs =
      (if sub32 inpSample.millisAtStart stSample.g_previousDisplayMillis >
          CLEAR_AFTER_MILLISECONDS then
        [DisplayAction.fillScreen SSD1306_BLACK, DisplayAction.setCursor 0 0]
      else [])
      ++ renderBody libStub inpSample.results
    ∧ DisplayAction.fillScreen SSD1306_BLACK ∉ renderBody libStub inpSample.results
    ∧ DisplayAction.setCursor 0 0 ∉ renderBody libStub inpSample.results) :=
  ⟨rfl, rfl, clear_iff_elapsed_exceeds_threshold libStub inpSample stSample rfl rfl⟩

/-! ## C2 -/

/-- C2: in an iteration where no new code was decoded, exactly one 2x2 white
rectangle at (126, 62) followed by a flush is issued when the modular elapsed
time exceeds 2000 ms, and nothing at all otherwise; no serial output is
produced either way. -/
theorem idle_indicator_iff_elapsed (lib : LibFns) (inp : LoopInput)
    (st : SysState) (hdec : inp.decoded = false) :
    (loopStep lib inp st).displayActs =
      (if sub32 inp.millisAtStart st.g_previousDisplayMillis >
          CLEAR_AFTER_MILLISECONDS then
        [DisplayAction.fillRect 126 62 2 2 SSD1306_WHITE, DisplayAction.flush]
      else [])
    ∧ (loopStep lib inp st).serial = [] := by
  constructor
  · simp only [loopStep, hdec, Bool.false_and, Bool.false_eq_true, if_false]
    simp [idleActs, sub32_mod_left, SCREEN_WIDTH, SCREEN_HEIGHT]
  · simp [loopStep, hdec]

/-- Witness for C2 at a concrete library, input and state. -/
theorem idle_indicator_iff_elapsed_witness :
    ({ inpSample with decoded := false } : LoopInput).decoded = false ∧
    ((loopStep libStub { inpSample with decoded := false } stSample).displayActs =
      (if sub32 ({ inpSample with decoded := false } : LoopInput).millisAtStart
          stSample.g_previousDisplayMillis > CLEAR_AFTER_MILLISECONDS then
        [DisplayAction.fillRect 126 62 2 2 SSD1306_WHITE, DisplayAction.flush]
      else [])
    ∧ (loopStep libStub { inpSample with decoded := false } stSample).serial = []) :=
  ⟨rfl, idle_indicator_iff_elapsed libStub { inpSample with decoded := false }
    stSample rfl⟩

/-! ## C3 -/

/-- C3: a repeat-flagged decode result triggers no render cycle: no serial
output, `g_previousDisplayMillis` untouched, and the display calls are just
the idle-branch ones — in particular nothing is printed and the screen is not
cleared. -/
theorem repeat_no_render (lib : LibFns) (inp : LoopInput) (st : SysState)
    (hdec : inp.decoded = true) (hrep : inp.results.«repeat» = true) :
    (loopStep lib inp st).serial = []
    ∧ (loopStep lib inp st).state.g_previousDisplayMillis =
        st.g_previousDisplayMillis
    ∧ (loopStep lib inp st).displayActs =
        idleActs { st with g_currentMillis := inp.millisAtStart % UINT32_MOD,
                           g_DecodeResults := inp.results }
    ∧ (∀ s : String, DisplayAction.print s ∉ (loopStep lib inp st).displayActs)
    ∧ DisplayAction.fillScreen SSD1306_BLACK ∉ (loopStep lib inp st).displayActs := by
  have hbranch : (loopStep lib inp st) =
      { state := { st with g_currentMillis := inp.millisAtStart % UINT32_MOD,
                           g_DecodeResults := inp.results },
        serial := [],
        displayActs := idleActs
          { st with g_currentMillis := inp.millisAtStart % UINT32_MOD,
                    g_DecodeResults := inp.results } } := by
    simp [loopStep, hdec, hrep]
  refine ⟨by rw [hbranch], by rw [hbranch], by rw [hbranch], ?_, ?_⟩
  · intro s
    rw [hbranch]
    simp only [idleActs]
    split <;> simp
  · rw [hbranch]
    simp only [idleActs]
    split <;> simp

/-- Witness for C3 at a concrete library, input and state. -/
theorem repeat_no_render_witness :
    ({ inpSample with results := { rSample with «repeat» := true } } : LoopInput).decoded = true ∧
    ({ inpSample with results := { rSample with «repeat» := true } } : LoopInput).results.«repeat» = true ∧
    ((loopStep libStub { inpSample with results := { rSample with «repeat» := true } } stSample).serial = []
    ∧ (loopStep libStub { inpSample with results := { rSample with «repeat» := true } } stSample).state.g_previousDisplayMillis =
        stSample.g_previousDisplayMillis
    ∧ (loopStep libStub { inpSample with results := { rSample with «repeat» := true } } stSample).displayActs =
        idleActs { stSample with
          g_currentMillis :=
            ({ inpSample with results := { rSample with «repeat» := true } } : LoopInput).millisAtStart % UINT32_MOD,
          g_DecodeResults :=
            ({ inpSample with results := { rSample with «repeat» := true } } : LoopInput).results }
    ∧ (∀ s : String, DisplayAction.print s ∉
        (loopStep libStub { inpSample with results := { rSample with «repeat» := true } } stSample).displayActs)
    ∧ DisplayAction.fillScreen SSD1306_BLACK ∉
        (loopStep libStub { inpSample with results := { rSample with «repeat» := true } } stSample).displayActs) :=
  ⟨rfl, rfl, repeat_no_render libStub
    { inpSample with results := { rSample with «repeat» := true } } stSample rfl rfl⟩

/-! ## C4 -/

/-- C4: for 8-bit values 0 < V ≤ 255 the printf pair `0x%02X%02X (%d)` with
arguments `V`, `0xFF - V`, `V` renders exactly the spec's format (two
uppercase hex digits of V, two of 0xFF-V, decimal V in parentheses), and the
display line and serial line both carry that same pair string. -/
theorem addr_cmd_format (v : Nat) (h0 : 0 < v) (h255 : v ≤ 255) :
    displayAddrCmdPair v = specAddrCmdPair v
    ∧ serialAddrCmdPair v = specAddrCmdPair v
    ∧ (∀ r : DecodeResults, r.address = v →
        displayAddrActs r =
          [DisplayAction.print ("Address : " ++ specAddrCmdPair v ++ "\n")]
        ∧ serialAddrLines r = ["Address: " ++ specAddrCmdPair v])
    ∧ (∀ r : DecodeResults, r.command = v →
        displayCmdActs r =
          [DisplayAction.print ("Command : " ++ specAddrCmdPair v ++ "\n")]
        ∧ serialCmdLines r = ["Command: " ++ specAddrCmdPair v]) := by
  have hp : displayAddrCmdPair v = specAddrCmdPair v :=
    addrCmdPair_spec_bounded v (by omega) h0
  have hs : serialAddrCmdPair v = displayAddrCmdPair v := rfl
  refine ⟨hp, hs.trans hp, ?_, ?_⟩
  · intro r hr
    constructor
    · simp [displayAddrActs, hr, h0, hp]
    · simp [serialAddrLines, hr, hs.trans hp, Nat.pos_iff_ne_zero.mp h0]
  · intro r hr
    constructor
    · simp [displayCmdActs, hr, h0, hp]
    · simp [serialCmdLines, hr, hs.trans hp, Nat.pos_iff_ne_zero.mp h0]

/-- Witness for C4 at V = 4, including the spec's worked example. -/
theorem addr_cmd_format_witness :
    0 < 4 ∧ 4 ≤ 255
    ∧ (displayAddrCmdPair 4 = specAddrCmdPair 4
      ∧ serialAddrCmdPair 4 = specAddrCmdPair 4
      ∧ (∀ r : DecodeResults, r.address = 4 →
          displayAddrActs r =
            [DisplayAction.print ("Address : " ++ specAddrCmdPair 4 ++ "\n")]
          ∧ serialAddrLines r = ["Address: " ++ specAddrCmdPair 4])
      ∧ (∀ r : DecodeResults, r.command = 4 →
          displayCmdActs r =
            [DisplayAction.print ("Command : " ++ specAddrCmdPair 4 ++ "\n")]
          ∧ serialCmdLines r = ["Command: " ++ specAddrCmdPair 4]))
    ∧ specAddrCmdPair 4 = "0x04FB (4)" :=
  ⟨by decide, by decide, addr_cmd_format 4 (by decide) (by decide), by decide⟩

/-! ## C5 -/

/-- C5: a new, non-repeat decode result with the overflow flag set logs the
buffer-full warning right after the BEGIN banner, and processing continues
unchanged: the full dump body and the END banner still appear, and the
display render (displayResults) still happens exactly as usual.  The final
conjunct shows that without the overflow flag the dump is identical except
that the warning line is absent. -/
theorem overflow_warns_and_continues (lib : LibFns) (inp : LoopInput)
    (st : SysState) (hdec : inp.decoded = true)
    (hrep : inp.results.«repeat» = false)
    (hovf : inp.results.overflow = true) :
    (loopStep lib inp st).serial =
      "[====== ESP8266IRRecord - BEGIN ======]"
        :: lib.warnBufferFull kCaptureBufferSize
        :: (serialDumpBody lib inp.results
            ++ ["[====== ESP8266IRRecord - END ======]"])
    ∧ (loopStep lib inp st).displayActs =
        (if sub32 inp.millisAtStart st.g_previousDisplayMillis >
            CLEAR_AFTER_MILLISECONDS then
          [DisplayAction.fillScreen SSD1306_BLACK, DisplayAction.setCursor 0 0]
        else [])
        ++ renderBody lib inp.results
    ∧ (∀ r' : DecodeResults, r'.overflow = false →
        serialDump lib r' =
          "[====== ESP8266IRRecord - BEGIN ======]" :: serialDumpBody lib r') := by
  refine ⟨?_, ?_, ?_⟩
  · simp [loopStep, hdec, hrep, hovf, serialDump, serialDumpBody,
      kTolerancePercentage]
  · simp [loopStep, displayResults, hdec, hrep, sub32_mod_left]
  · intro r' hro
    simp [serialDump, serialDumpBody, hro, kTolerancePercentage]

/-- Witness for C5 at a concrete library, input and state. -/
theorem overflow_warns_and_continues_witness :
    ({ inpSample with results := { rSample with overflow := true } } : LoopInput).decoded = true ∧
    ({ inpSample with results := { rSample with overflow := true } } : LoopInput).results.«repeat» = false ∧
    ({ inpSample with results := { rSample with overflow := true } } : LoopInput).results.overflow = true ∧
    ((loopStep libStub { inpSample with results := { rSample with overflow := true } } stSample).serial =
      "[====== ESP8266IRRecord - BEGIN ======]"
        :: libStub.warnBufferFull kCaptureBufferSize
        :: (serialDumpBody libStub ({ inpSample with results := { rSample with overflow := true } } : LoopInput).results
            ++ ["[====== ESP8266IRRecord - END ======]"])
    ∧ (loopStep libStub { inpSample with results := { rSample with overflow := true } } stSample).displayActs =
        (if sub32 ({ inpSample with results := { rSample with overflow := true } } : LoopInput).millisAtStart
            stSample.g_previousDisplayMillis > CLEAR_AFTER_MILLISECONDS then
          [DisplayAction.fillScreen SSD1306_BLACK, DisplayAction.setCursor 0 0]
        else [])
        ++ renderBody libStub ({ inpSample with results := { rSample with overflow := true } } : LoopInput).results
    ∧ (∀ r' : DecodeResults, r'.overflow = false →
        serialDump libStub r' =
          "[====== ESP8266IRRecord - BEGIN ======]" :: serialDumpBody libStub r')) :=
  ⟨rfl, rfl, rfl, overflow_warns_and_continues libStub
    { inpSample with results := { rSample with overflow := true } } stSample rfl rfl rfl⟩

/-! ## C6 -/

/-- C6: if `display.begin` fails, setup logs the failure message and halts
permanently in the empty infinite loop (the `halted` outcome: no waiting
screen is drawn and the main loop is never reached); on success the success
message is logged and setup proceeds to draw the waiting screen. -/
theorem display_init_failure_halts (lib : LibFns) (pin : Nat) :
    setup lib pin false =
      SetupOutcome.halted
        [lib.irrecvDumpStartup pin, "SSD1306 allocation FAILED"]
    ∧ setup lib pin true =
      SetupOutcome.completed
        [lib.irrecvDumpStartup pin, "SSD1306 allocation SUCCEEDED"]
        [DisplayAction.fillScreen SSD1306_BLACK,
         DisplayAction.setTextSize TEXT_SIZE_MEDIUM,
         DisplayAction.setTextColor SSD1306_WHITE,
         DisplayAction.setCursor 0 0,
         DisplayAction.print "Waiting\nfor\nIR Code...\n",
         DisplayAction.flush] :=
  ⟨rfl, rfl⟩

/-! ## C7 -/

/-- C7: full frame condition of one loop iteration over the three pieces of
mutable state.  `g_previousDisplayMillis` changes only in iterations that
call displayResults (a new, non-repeat decode), and then only to the value
displayResults assigns at its end; `g_currentMillis` is set from `millis()`
every iteration; the decode record is overwritten exactly when decode
returned true.  `SysState` has no other fields, so nothing else is mutated. -/
theorem timestamp_frame_condition (lib : LibFns) (inp : LoopInput)
    (st : SysState) :
    (loopStep lib inp st).state.g_currentMillis = inp.millisAtStart % UINT32_MOD
    ∧ (loopStep lib inp st).state.g_DecodeResults =
        (if inp.decoded then inp.results else st.g_DecodeResults)
    ∧ (loopStep lib inp st).state.g_previousDisplayMillis =
        (if inp.decoded && !inp.results.«repeat» then
          (displayResults
            { st with g_currentMillis := inp.millisAtStart % UINT32_MOD,
                      g_DecodeResults := inp.results }
            lib inp.results inp.millisAtDisplayEnd).2
        else st.g_previousDisplayMillis) := by
  rcases inp with ⟨ms, d, r, me⟩
  cases d <;> cases hr : r.«repeat» <;>
    simp [loopStep, displayResults, hr]

/-! ## C8 -/

/-- C8: a zero address field emits no address line on the display nor on the
serial log, and likewise a zero command field emits no command line: the
formatting applies only to strictly positive values. -/
theorem zero_fields_omitted (r : DecodeResults) :
    (r.address = 0 → displayAddrActs r = [] ∧ serialAddrLines r = [])
    ∧ (r.command = 0 → displayCmdActs r = [] ∧ serialCmdLines r = []) := by
  constructor <;> intro h <;>
    simp [displayAddrActs, serialAddrLines, displayCmdActs, serialCmdLines, h]

/-- Witness for C8 at a concrete all-zero record. -/
theorem zero_fields_omitted_witness :
    ({ rSample with address := 0, command := 0 } : DecodeResults).address = 0
    ∧ ({ rSample with address := 0, command := 0 } : DecodeResults).command = 0
    ∧ displayAddrActs { rSample with address := 0, command := 0 } = []
    ∧ serialAddrLines { rSample with address := 0, command := 0 } = []
    ∧ displayCmdActs { rSample with address := 0, command := 0 } = []
    ∧ serialCmdLines { rSample with address := 0, command := 0 } = [] :=
  ⟨rfl, rfl,
   ((zero_fields_omitted { rSample with address := 0, command := 0 }).1 rfl).1,
   ((zero_fields_omitted { rSample with address := 0, command := 0 }).1 rfl).2,
   ((zero_fields_omitted { rSample with address := 0, command := 0 }).2 rfl).1,
   ((zero_fields_omitted { rSample with address := 0, command := 0 }).2 rfl).2⟩

/-! ## C9 -/

/-- C9: the serial `Value` line appears iff the 64-bit value is nonzero, and
its payload is the high half then the low half, each as 8 zero-padded
uppercase hex digits; the resulting 16-hex-digit string parses back to the
full 64-bit value. -/
theorem value_line_iff_nonzero (r : DecodeResults) (h : r.value < 2 ^ 64) :
    serialValueLines r =
      (if r.value = 0 then [] else
        ["Value  : 0x" ++ (fmt08X (r.value / 2 ^ 32 % UINT32_MOD)
                           ++ fmt08X (r.value % UINT32_MOD))])
    ∧ fromHexString (fmt08X (r.value / 2 ^ 32 % UINT32_MOD)
        ++ fmt08X (r.value % UINT32_MOD)) = r.value
    ∧ (fmt08X (r.value / 2 ^ 32 % UINT32_MOD)
        ++ fmt08X (r.value % UINT32_MOD)).length = 16 := by
  refine ⟨?_, (fmt08X_pair_value r.value h).1, (fmt08X_pair_value r.value h).2⟩
  by_cases h0 : r.value = 0
  · simp [serialValueLines, h0]
  · simp only [serialValueLines, h0, ne_eq, not_false_iff, if_true, if_false]
    rw [String.append_assoc]

/-- Witness for C9 at the sample NEC value 0x20DF40BF. -/
theorem value_line_iff_nonzero_witness :
    rSample.value < 2 ^ 64
    ∧ (serialValueLines rSample =
        (if rSample.value = 0 then [] else
          ["Value  : 0x" ++ (fmt08X (rSample.value / 2 ^ 32 % UINT32_MOD)
                             ++ fmt08X (rSample.value % UINT32_MOD))])
      ∧ fromHexString (fmt08X (rSample.value / 2 ^ 32 % UINT32_MOD)
          ++ fmt08X (rSample.value % UINT32_MOD)) = rSample.value
      ∧ (fmt08X (rSample.value / 2 ^ 32 % UINT32_MOD)
          ++ fmt08X (rSample.value % UINT32_MOD)).length = 16) :=
  ⟨by decide, value_line_iff_nonzero rSample (by decide)⟩

/-! ## C10 -/

/-- C10: both elapsed-time decisions — the clear-before-render check inside
displayResults and the idle-indicator check in the loop's else branch — test
the same unsigned 32-bit modular difference against the strict bound 2000.
The difference is always a well-defined natural number below 2^32, is
invariant under advancing both timestamps by the same amount modulo 2^32
(wraparound safety), and agrees with ordinary subtraction when no wraparound
occurred. -/
theorem elapsed_modular_difference (lib : LibFns) (st : SysState)
    (r : DecodeResults) (m : Nat) :
    ((displayResults st lib r m).1.head? =
        some (DisplayAction.fillScreen SSD1306_BLACK) ↔
      sub32 st.g_currentMillis st.g_previousDisplayMillis >
        CLEAR_AFTER_MILLISECONDS)
    ∧ (idleActs st ≠ [] ↔
        sub32 st.g_currentMillis st.g_previousDisplayMillis >
          CLEAR_AFTER_MILLISECONDS)
    ∧ (∀ a b, sub32 a b < UINT32_MOD)
    ∧ (∀ c p k, sub32 ((c + k) % UINT32_MOD) ((p + k) % UINT32_MOD) = sub32 c p)
    ∧ (∀ c p, p ≤ c → c < UINT32_MOD → sub32 c p = c - p) := by
  refine ⟨?_, ?_, ?_, ?_, ?_⟩
  · by_cases hc : sub32 st.g_currentMillis st.g_previousDisplayMillis >
        CLEAR_AFTER_MILLISECONDS <;>
      simp [displayResults, renderBody, hc]
  · unfold idleActs
    split <;> simp_all
  · intro a b
    simp only [sub32, UINT32_MOD]
    omega
  · intro c p k
    simp only [sub32, UINT32_MOD]
    omega
  · intro c p h1 h2
    simp only [sub32, UINT32_MOD] at *
    omega

/-- Witness for C10: no wraparound between 3 and 5 ms. -/
theorem elapsed_modular_difference_witness :
    3 ≤ 5 ∧ 5 < UINT32_MOD ∧ sub32 5 3 = 5 - 3 :=
  ⟨by decide, by decide,
   (elapsed_modular_difference libStub stSample rSample 0).2.2.2.2 5 3
     (by decide) (by decide)⟩
